import Mathlib

/-!
Shallow embedding of the agent control plane of the ETI_Site repository:
the HMAC request verifier and agent routes (apps/api/src/routes/agent.ts),
the admin approval routes (apps/api/src/routes/admin.ts), the queue
consumer (apps/api/src/jobs/queue.ts) and the scheduled-task sweep of the
cron handler.  Database tables are modelled as in-memory lists in insertion
order; D1 updates become list maps; Cloudflare KV becomes an association
list.  Cryptographic digests are abstracted: the HMAC function used by the
verifier is a parameter, and the payload fingerprint is a cheap injective
serialization, since no property below depends on digest values.
-/

/-- Static risk classification of an agent (agents.config.yaml / AGENT_CONFIG). -/
inductive RiskLevel where
  | low
  | medium
  | high
deriving DecidableEq

/-- Status column of the agent_changes table. -/
inductive ChangeStatus where
  | pending
  | approved
  | rejected
  | executed
deriving DecidableEq

/-- Status column of the agent_tasks table. -/
inductive TaskStatus where
  | pending
  | running
  | completed
  | failed
deriving DecidableEq

/-- Body of POST /agent/flags after FlagChangeSchema parsing; the JSON value
is kept as its serialized form since the code only ever re-serializes it. -/
structure FlagChange where
  flagKey : String
  value : String
  ttl : Option Nat
  reason : String
deriving DecidableEq

/-- Body of POST /agent/proposals/content after ContentProposalSchema parsing
(the optional metadata object is irrelevant to every property below). -/
structure ContentProposal where
  path : String
  markdown : String
  reason : String
deriving DecidableEq

/-- Payload column of an agent_changes row, discriminated by the action. -/
inductive Payload where
  | flag (fc : FlagChange)
  | contentProp (cp : ContentProposal)
deriving DecidableEq

/-- A row of the agent_changes table.  createdAt is filled by a database
default and never read by the routes, so it is omitted. -/
structure Change where
  id : String
  agentId : String
  action : String
  payloadHash : String
  payload : Payload
  riskLevel : RiskLevel
  status : ChangeStatus
  approvedBy : Option String
  approvedAt : Option Int
  executedAt : Option Int
  error : Option String
deriving DecidableEq

/-- A row of the agent_tasks table (createdAt/updatedAt omitted as above). -/
structure TaskRec where
  id : String
  agentId : String
  type : String
  payloadJson : String
  status : TaskStatus
  priority : Nat
  attempts : Nat
  maxAttempts : Nat
  result : Option String
  error : Option String
  scheduledFor : Option Int
  startedAt : Option Int
  completedAt : Option Int
deriving DecidableEq

/-- A row of the feature_flags audit table as inserted by POST /agent/flags. -/
structure FlagLogEntry where
  id : String
  key : String
  value : String
  changedBy : String
  changeReason : String
deriving DecidableEq

/-- The persistent state the claims are about: the agent_changes ledger, the
agent_tasks table, the CONFIG_KV namespace and the feature_flags audit log. -/
structure ApiState where
  changes : List Change
  tasks : List TaskRec
  flagsKV : List (String × String)
  flagLog : List FlagLogEntry
deriving DecidableEq

/-- A message on JOBS_QUEUE (interface QueueMessage in jobs/queue.ts). -/
structure QueueMessage where
  taskId : String
  agentId : String
  type : String
  payload : String
deriving DecidableEq

/-- Numeric value of a run of decimal digit characters. -/
def digitsVal (ds : List Char) : Nat :=
  ds.foldl (fun acc c => acc * 10 + (c.toNat - 48)) 0

/-- Model of JavaScript parseInt as applied to the X-Timestamp header: skip
leading whitespace, accept an optional sign, then read a maximal run of
decimal digits; none models NaN (no digits found).  The hexadecimal 0x
prefix of parseInt is not modelled: no claim depends on it. -/
def jsParseInt (s : String) : Option Int :=
  let cs := s.data.dropWhile (fun c => c == ' ' || c == '\t' || c == '\n' || c == '\r')
  let signAndRest : Int × List Char :=
    match cs with
    | '-' :: rest => (-1, rest)
    | '+' :: rest => (1, rest)
    | rest => (1, rest)
  let ds := signAndRest.2.takeWhile Char.isDigit
  if ds.isEmpty then none
  else some (signAndRest.1 * Int.ofNat (digitsVal ds))

/-- The staleness comparison of verifyHMAC: Math.abs(now - requestTime) > 300.
When parseInt produced NaN (modelled as none) every JavaScript comparison
with NaN evaluates to false, so the check does not reject. -/
def staleRejected (now : Int) : Option Int → Bool
  | some t => decide (300 < (now - t).natAbs)
  | none => false

/-- The AGENT_CONFIG map of agent.ts: secret binding name and static risk. -/
def AGENT_CONFIG (agentId : String) : Option (String × RiskLevel) :=
  if agentId == "ContentAgent" then some ("CONTENTAGENT_API_KEY", .medium)
  else if agentId == "SEOAgent" then some ("SEOAGENT_API_KEY", .low)
  else if agentId == "OpsAgent" then some ("OPSAGENT_API_KEY", .low)
  else if agentId == "CommerceAgent" then some ("COMMERCEAGENT_API_KEY", .high)
  else if agentId == "CommunityAgent" then some ("COMMUNITYAGENT_API_KEY", .medium)
  else none

/-- Outcome of the verifyHMAC middleware. -/
inductive AuthResult where
  | missingCredentials
  | staleRequest
  | unknownAgent
  | configurationError
  | invalidSignature
  | authenticated (agentId : String) (risk : RiskLevel)
deriving DecidableEq

/-- The tail of verifyHMAC after the staleness check: agent lookup, secret
lookup (an absent or empty secret is falsy in the source and yields the
configuration error), HMAC computation over agentId:timestamp:body with the
abstract mac, and the signature comparison (length mismatch or unequal
bytes rejects; constant-timeness is a non-functional property). -/
def lookupAndVerify (env : String → Option String) (mac : String → String → String)
    (agentId ts sig body : String) : AuthResult :=
  match AGENT_CONFIG agentId with
  | none => .unknownAgent
  | some cfg =>
    match env cfg.1 with
    | none => .configurationError
    | some secret =>
      if secret == "" then .configurationError
      else
        let message := agentId ++ ":" ++ ts ++ ":" ++ body
        let expected := mac secret message
        if sig.length != expected.length || sig != expected then .invalidSignature
        else .authenticated agentId cfg.2

/-- The verifyHMAC middleware of agent.ts.  Headers are Option String (absent
or present); an absent or empty header is falsy in the source and yields
missingCredentials.  now is Math.floor(Date.now() / 1000). -/
def verifyHMAC (env : String → Option String) (mac : String → String → String)
    (agentId timestamp signature : Option String) (body : String) (now : Int) : AuthResult :=
  match agentId, timestamp, signature with
  | some aid, some ts, some sig =>
    if aid == "" || ts == "" || sig == "" then .missingCredentials
    else if staleRejected now (jsParseInt ts) then .staleRequest
    else lookupAndVerify env mac aid ts sig body
  | _, _, _ => .missingCredentials

/-- JavaScript String.prototype.includes: the pattern occurs as a contiguous
substring of the receiver. -/
def jsIncludes (s pat : String) : Bool := decide (pat.data <:+: s.data)

/-- The sensitive-key test of POST /agent/flags:
flagKey.includes("production") || flagKey.includes("critical"). -/
def isHighRiskKey (key : String) : Bool :=
  jsIncludes key "production" || jsIncludes key "critical"

/-- Character class [a-z0-9\-\/] of the ContentProposalSchema path regex. -/
def isPathChar (c : Char) : Bool :=
  (decide ('a' ≤ c) && decide (c ≤ 'z')) || (decide ('0' ≤ c) && decide (c ≤ '9'))
    || c == '-' || c == '/'

/-- Nonempty stem made only of path-class characters. -/
def stemOk (stem : List Char) : Bool := !stem.isEmpty && stem.all isPathChar

/-- The path regex of ContentProposalSchema: one or more class characters,
then a literal dot and the extension md or mdx (the class excludes the dot,
so the stem before the extension may not contain one). -/
def pathMatches (s : String) : Bool :=
  (decide (".md".data <:+ s.data) && stemOk (s.data.take (s.data.length - 3)))
  || (decide (".mdx".data <:+ s.data) && stemOk (s.data.take (s.data.length - 4)))

/-- The Zod validation of ContentProposalSchema: path matches the regex and
markdown has at most 50000 characters. -/
def validContentProposal (cp : ContentProposal) : Bool :=
  pathMatches cp.path && decide (cp.markdown.length ≤ 50000)

/-- Stand-in for createHmac("sha256", "salt") over the serialized payload;
only the presence of the stored fingerprint matters to the properties below,
so a cheap injective serialization replaces the SHA-256 digest. -/
def payloadHash (p : Payload) : String :=
  match p with
  | .flag fc => "sha256:salt:flag:" ++ fc.flagKey ++ ":" ++ fc.value ++ ":" ++ fc.reason
  | .contentProp cp => "sha256:salt:content:" ++ cp.path ++ ":" ++ cp.reason

/-- CONFIG_KV.put: overwrite any existing value stored at the key. -/
def kvPut (kv : List (String × String)) (k v : String) : List (String × String) :=
  (k, v) :: kv.filter (fun p => p.1 != k)

/-- Response of POST /agent/proposals/content. -/
inductive ContentResp where
  | invalidInput
  | autoApproved (id : String)
  | pendingApproval (id : String)
deriving DecidableEq

/-- Response of POST /agent/flags. -/
inductive FlagsResp where
  | invalidInput
  | pendingApproval (id : String)
  | applied (id : String)
deriving DecidableEq

/-- The agent_changes row inserted by POST /agent/proposals/content. -/
def contentChangeRec (agentId : String) (riskLevel : RiskLevel) (cp : ContentProposal)
    (changeId : String) : Change :=
  { id := changeId
    agentId := agentId
    action := "content_proposal"
    payloadHash := payloadHash (.contentProp cp)
    payload := .contentProp cp
    riskLevel := riskLevel
    status := if riskLevel == .low then .approved else .pending
    approvedBy := none
    approvedAt := none
    executedAt := none
    error := none }

/-- POST /agent/proposals/content.  riskLevel is the submitting agent's
static class, stored by the middleware.  The inserted Change is approved for
a low-risk agent and pending otherwise.  In the low-risk branch the source
returns a message claiming a PR was created, but the GitHub call is an
unimplemented TODO: no executor runs and no further state changes occur. -/
def agentPostContent (st : ApiState) (agentId : String) (riskLevel : RiskLevel)
    (cp : ContentProposal) (changeId : String) : ApiState × ContentResp :=
  if !(validContentProposal cp) then (st, .invalidInput)
  else
    let st1 := {st with changes := st.changes ++ [contentChangeRec agentId riskLevel cp changeId]}
    if riskLevel == .low then (st1, .autoApproved changeId)
    else (st1, .pendingApproval changeId)

/-- The pending high-risk agent_changes row inserted by POST /agent/flags. -/
def flagChangeRec (agentId : String) (fc : FlagChange) (changeId : String) : Change :=
  { id := changeId
    agentId := agentId
    action := "flag_change"
    payloadHash := payloadHash (.flag fc)
    payload := .flag fc
    riskLevel := .high
    status := .pending
    approvedBy := none
    approvedAt := none
    executedAt := none
    error := none }

/-- POST /agent/flags.  Only when the key is sensitive AND the agent is not
low-risk is a pending high-risk Change recorded; in every other case the
flag is applied at once: CONFIG_KV is written and a feature_flags audit row
is inserted (FlagChangeSchema itself cannot fail on structured input). -/
def agentPostFlags (st : ApiState) (agentId : String) (riskLevel : RiskLevel)
    (fc : FlagChange) (changeId flagRowId : String) : ApiState × FlagsResp :=
  let isHighRisk := isHighRiskKey fc.flagKey
  if isHighRisk && riskLevel != .low then
    ({st with changes := st.changes ++ [flagChangeRec agentId fc changeId]},
      .pendingApproval changeId)
  else
    let st1 := {st with flagsKV := kvPut st.flagsKV fc.flagKey fc.value}
    let entry : FlagLogEntry := {
      id := flagRowId
      key := fc.flagKey
      value := fc.value
      changedBy := agentId
      changeReason := fc.reason }
    ({st1 with flagLog := st1.flagLog ++ [entry]}, .applied changeId)

/-- db.update(agentChanges).set(f).where(eq(agentChanges.id, cid)): apply f
to every ledger row whose id matches. -/
def updChange (cid : String) (f : Change → Change) (st : ApiState) : ApiState :=
  {st with changes := st.changes.map (fun c => if c.id == cid then f c else c)}

/-- db.select().from(agentChanges).where(eq(id, cid)).limit(1). -/
def findChange (st : ApiState) (cid : String) : Option Change :=
  (st.changes.filter (fun c => c.id == cid)).head?

/-- Outcome of the admin approve and reject handlers. -/
inductive DecideResult where
  | notFound
  | alreadyProcessed
  | ok
deriving DecidableEq

/-- executeAgentChange of admin.ts, invoked with the snapshot read before
the approve update: a content_proposal only logs (the GitHub call is a
TODO), a flag_change writes CONFIG_KV; afterwards the row is marked
executed with executedAt set.  The payload mismatch arm is unreachable for
rows inserted by the agent routes. -/
def executeAgentChange (ch : Change) (now : Int) (st : ApiState) : ApiState :=
  let st1 :=
    if ch.action == "content_proposal" then st
    else if ch.action == "flag_change" then
      match ch.payload with
      | .flag fc => {st with flagsKV := kvPut st.flagsKV fc.flagKey fc.value}
      | _ => st
    else st
  updChange ch.id (fun c => {c with status := .executed, executedAt := some now}) st1

/-- POST /admin/approvals/:id/approve: 404 when the row is absent, 400 when
its status is not pending, otherwise set approved/approvedBy/approvedAt and
execute the change. -/
def adminApprove (st : ApiState) (cid : String) (now : Int) : ApiState × DecideResult :=
  match findChange st cid with
  | none => (st, .notFound)
  | some ch =>
    if ch.status != .pending then (st, .alreadyProcessed)
    else
      let st1 := updChange cid
        (fun c => {c with status := .approved, approvedBy := some "admin",
                          approvedAt := some now}) st
      (executeAgentChange ch now st1, .ok)

/-- POST /admin/approvals/:id/reject: the source performs the update with no
existence check and no pending-status check, then reports success. -/
def adminReject (st : ApiState) (cid : String) (reason : String) (now : Int) :
    ApiState × DecideResult :=
  (updChange cid
    (fun c => {c with status := .rejected, approvedBy := some "admin",
                      approvedAt := some now, error := some reason}) st, .ok)

/-- db.update(agentTasks).set(f).where(eq(agentTasks.id, tid)). -/
def updTask (tid : String) (f : TaskRec → TaskRec) (st : ApiState) : ApiState :=
  {st with tasks := st.tasks.map (fun t => if t.id == tid then f t else t)}

/-- A task-type handler: it may mutate persistent state (inserting KPI rows,
storing results) and either returns normally or throws the given error
message.  Handlers are parameters of the model: their bodies call external
services and are irrelevant to the queue bookkeeping under scrutiny. -/
abbrev Handler := ApiState → QueueMessage → ApiState × Option String

/-- The six concrete handlers the switch of processMessage dispatches to. -/
structure HandlerSet where
  seoAudit : Handler
  contentGeneration : Handler
  analyticsSnapshot : Handler
  sendEmail : Handler
  syncNewsletter : Handler
  playbookExecution : Handler

/-- The switch (message.type) of processMessage; the default arm only warns. -/
def handlerFor (h : HandlerSet) (ty : String) : Option Handler :=
  if ty == "seo_audit" then some h.seoAudit
  else if ty == "content_generation" then some h.contentGeneration
  else if ty == "analytics_snapshot" then some h.analyticsSnapshot
  else if ty == "send_email" then some h.sendEmail
  else if ty == "sync_newsletter" then some h.syncNewsletter
  else if ty == "playbook_execution" then some h.playbookExecution
  else none

/-- Field update to status running with startedAt set. -/
def runUpd (now : Int) (t : TaskRec) : TaskRec :=
  {t with status := TaskStatus.running, startedAt := some now}

/-- Update to status running with startedAt set, as done both by
processMessage and by the scheduled-task sweep. -/
def markRunning (tid : String) (now : Int) : ApiState → ApiState :=
  updTask tid (runUpd now)

/-- Update to status completed with completedAt set (end of processMessage). -/
def markCompleted (tid : String) (now : Int) : ApiState → ApiState :=
  updTask tid (fun t => {t with status := .completed, completedAt := some now})

/-- The catch arm of handleQueueBatch: when the task id is truthy, mark the
task failed with the error and completedAt.  attempts is not touched. -/
def markMessageFailed (tid : String) (e : String) (now : Int) (st : ApiState) : ApiState :=
  if tid == "" then st
  else updTask tid (fun t => {t with status := .failed, error := some e,
                                     completedAt := some now}) st

/-- processMessage of jobs/queue.ts: mark running, dispatch on the type
string (an unknown type only logs a warning), then mark completed.  A thrown
handler error propagates with the state as mutated so far; the completed
update is skipped in that case. -/
def processMessage (st : ApiState) (msg : QueueMessage) (h : HandlerSet) (now : Int) :
    ApiState × Option String :=
  let st1 := markRunning msg.taskId now st
  match handlerFor h msg.type with
  | none => (markCompleted msg.taskId now st1, none)
  | some f =>
    match f st1 msg with
    | (st2, none) => (markCompleted msg.taskId now st2, none)
    | (st2, some e) => (st2, some e)

/-- What the consumer does with the delivery-channel message afterwards. -/
inductive MsgOutcome where
  | ack
  | retry
deriving DecidableEq

/-- The loop body of handleQueueBatch for one delivered message: on normal
return the message is acknowledged; on a thrown error the task is marked
failed and the message is retried unconditionally. -/
def consumeMessage (st : ApiState) (msg : QueueMessage) (h : HandlerSet) (now : Int) :
    ApiState × MsgOutcome :=
  match processMessage st msg h now with
  | (st', none) => (st', .ack)
  | (st', some e) => (markMessageFailed msg.taskId e now st', .retry)

/-- handleQueueBatch: fold the loop body over the delivered batch, recording
each message's outcome in order. -/
def handleQueueBatch (st : ApiState) (msgs : List QueueMessage) (h : HandlerSet)
    (now : Int) : ApiState × List MsgOutcome :=
  msgs.foldl (fun acc m =>
    let r := consumeMessage acc.1 m h now
    (r.1, acc.2 ++ [r.2])) (st, [])

/-- The where clause of processScheduledTasks: status pending and
scheduledFor ≤ now; a NULL scheduledFor does not satisfy the SQL lte. -/
def eligibleScheduled (now : Int) (t : TaskRec) : Bool :=
  t.status == .pending &&
    match t.scheduledFor with
    | some s => decide (s ≤ now)
    | none => false

/-- The batch the sweep selects: the eligible rows in table order, capped by
limit(10).  The source query has no orderBy clause. -/
def sweepSelected (st : ApiState) (now : Int) : List TaskRec :=
  (st.tasks.filter (eligibleScheduled now)).take 10

/-- The JOBS_QUEUE.send payload built from a selected task row. -/
def taskMessage (t : TaskRec) : QueueMessage :=
  { taskId := t.id, agentId := t.agentId, type := t.type, payload := t.payloadJson }

/-- processScheduledTasks of the cron handler: select at most ten pending
due tasks, send each to the queue, and flip each to running with startedAt.
Returns the new state and the messages sent, in selection order. -/
def processScheduledTasks (st : ApiState) (now : Int) : ApiState × List QueueMessage :=
  let selected := sweepSelected st now
  (selected.foldl (fun s t => markRunning t.id now s) st, selected.map taskMessage)

/-- State with every table empty. -/
def emptyState : ApiState := { changes := [], tasks := [], flagsKV := [], flagLog := [] }

/-- A flag change whose key is not sensitive. -/
def betaFlag : FlagChange :=
  { flagKey := "beta.banner", value := "true", ttl := none, reason := "enable beta banner" }

/-- A flag change whose key contains the sensitive word production. -/
def prodFlag : FlagChange :=
  { flagKey := "production.maintenance_mode", value := "true", ttl := none,
    reason := "maintenance window" }

/-- A content proposal that satisfies the ContentProposalSchema checks. -/
def cpSample : ContentProposal :=
  { path := "blog/hello.md", markdown := "# Hello", reason := "new post" }

/-- A ledger row that already reached the terminal executed status. -/
def executedFlagChange : Change :=
  { id := "c1", agentId := "CommerceAgent", action := "flag_change",
    payloadHash := payloadHash (.flag prodFlag), payload := .flag prodFlag,
    riskLevel := .high, status := .executed, approvedBy := some "admin",
    approvedAt := some 10, executedAt := some 11, error := none }

/-- State whose only ledger row is already executed. -/
def stExecuted : ApiState :=
  { changes := [executedFlagChange], tasks := [], flagsKV := [], flagLog := [] }

/-- A fresh pending task of the registered type send_email. -/
def pendingEmailTask : TaskRec :=
  { id := "t1", agentId := "OpsAgent", type := "send_email", payloadJson := "{}",
    status := .pending, priority := 5, attempts := 0, maxAttempts := 3,
    result := none, error := none, scheduledFor := none, startedAt := none,
    completedAt := none }

/-- A task whose attempts already equal its maxAttempts. -/
def exhaustedEmailTask : TaskRec := { pendingEmailTask with id := "t2", attempts := 3 }

/-- State holding the fresh task and the exhausted task. -/
def stTasks : ApiState :=
  { changes := [], tasks := [pendingEmailTask, exhaustedEmailTask], flagsKV := [],
    flagLog := [] }

/-- A handler that throws on every invocation without touching state. -/
def failingHandler : Handler := fun s _ => (s, some "boom")

/-- A handler table whose every handler throws. -/
def failingHandlers : HandlerSet :=
  { seoAudit := failingHandler, contentGeneration := failingHandler,
    analyticsSnapshot := failingHandler, sendEmail := failingHandler,
    syncNewsletter := failingHandler, playbookExecution := failingHandler }

/-- The queue message delivering the fresh task. -/
def msgT1 : QueueMessage :=
  { taskId := "t1", agentId := "OpsAgent", type := "send_email", payload := "{}" }

/-- The queue message delivering the exhausted task. -/
def msgT2 : QueueMessage :=
  { taskId := "t2", agentId := "OpsAgent", type := "send_email", payload := "{}" }

/-- A queue message whose type matches no registered handler. -/
def msgUnknown : QueueMessage :=
  { taskId := "t1", agentId := "OpsAgent", type := "bogus_type", payload := "{}" }

/-- The fresh task after the running update of processMessage at time 100. -/
def runningEmailTask : TaskRec :=
  { pendingEmailTask with status := .running, startedAt := some 100 }

/-- stTasks after the running update of processMessage applied to t1. -/
def stT1run : ApiState :=
  { changes := [], tasks := [runningEmailTask, exhaustedEmailTask], flagsKV := [],
    flagLog := [] }

/-- A due pending task scheduled later than earlyTask but stored first. -/
def lateTask : TaskRec := { pendingEmailTask with id := "late", scheduledFor := some 10 }

/-- A due pending task with the earliest scheduledFor, stored second. -/
def earlyTask : TaskRec := { pendingEmailTask with id := "early", scheduledFor := some 5 }

/-- State whose task table stores the later-scheduled task first. -/
def stSweep : ApiState :=
  { changes := [], tasks := [lateTask, earlyTask], flagsKV := [], flagLog := [] }

/-- An environment granting every secret binding the value k. -/
def wEnv : String → Option String := fun _ => some "k"

/-- An abstract MAC returning the fixed hex digest aa. -/
def wMac : String → String → String := fun _ _ => "aa"

/-- The stages of verifyHMAC that follow the staleness check can fail only
as unknownAgent, configurationError or invalidSignature: they never report
a stale request. -/
theorem lookupAndVerify_ne_stale (env : String → Option String)
    (mac : String → String → String) (a t s b : String) :
    lookupAndVerify env mac a t s b ≠ AuthResult.staleRequest := by
  cases hc : AGENT_CONFIG a with
  | none => simp [lookupAndVerify, hc]
  | some cfg =>
    cases he : env cfg.1 with
    | none => simp [lookupAndVerify, hc, he]
    | some secret =>
      simp only [lookupAndVerify, hc, he]
      split
      · simp
      · split <;> simp

/-- C6: the replay-window check of verifyHMAC is boundary inclusive.  For a
request whose X-Timestamp parses to t, when the distance between now and t
is exactly 300 seconds the request passes the staleness check (the result is
never staleRequest), and when the distance is 301 seconds the request is
rejected as staleRequest. -/
theorem c6_stale_window_boundary (env : String → Option String)
    (mac : String → String → String) (aid ts sig body : String) (now t : Int)
    (hpar : jsParseInt ts = some t) (haid : aid ≠ "") (hts : ts ≠ "") (hsig : sig ≠ "") :
    ((now - t).natAbs = 300 →
      verifyHMAC env mac (some aid) (some ts) (some sig) body now ≠ AuthResult.staleRequest) ∧
    ((now - t).natAbs = 301 →
      verifyHMAC env mac (some aid) (some ts) (some sig) body now = AuthResult.staleRequest) := by
  have hb : (aid == "" || ts == "" || sig == "") = false := by
    simp [haid, hts, hsig]
  constructor
  · intro h300
    simpa [verifyHMAC, hb, staleRejected, hpar, h300] using
      lookupAndVerify_ne_stale env mac aid ts sig body
  · intro h301
    simp [verifyHMAC, hb, staleRejected, hpar, h301]

/-- C6 witness: with timestamp 1000, now 1300 (distance exactly 300) passes
the staleness check while now 1301 (distance 301) is rejected as stale. -/
theorem c6_witness :
    jsParseInt "1000" = some 1000 ∧
    verifyHMAC wEnv wMac (some "SEOAgent") (some "1000") (some "aa") "" 1300
      ≠ AuthResult.staleRequest ∧
    verifyHMAC wEnv wMac (some "SEOAgent") (some "1000") (some "aa") "" 1301
      = AuthResult.staleRequest := by
  refine ⟨by decide, ?_, ?_⟩
  · exact (c6_stale_window_boundary wEnv wMac "SEOAgent" "1000" "aa" "" 1300 1000
      (by decide) (by decide) (by decide) (by decide)).1 (by decide)
  · exact (c6_stale_window_boundary wEnv wMac "SEOAgent" "1000" "aa" "" 1301 1000
      (by decide) (by decide) (by decide) (by decide)).2 (by decide)

/-- C9: when the X-Timestamp header is present but parseInt yields NaN
(modelled as none), the staleness comparison is false, so the request is not
rejected as stale: verification proceeds directly to the agent lookup and
signature stages. -/
theorem c9_nan_timestamp_bypasses_window (env : String → Option String)
    (mac : String → String → String) (aid ts sig body : String) (now : Int)
    (hpar : jsParseInt ts = none) (haid : aid ≠ "") (hts : ts ≠ "") (hsig : sig ≠ "") :
    staleRejected now (jsParseInt ts) = false ∧
    verifyHMAC env mac (some aid) (some ts) (some sig) body now =
      lookupAndVerify env mac aid ts sig body := by
  have hb : (aid == "" || ts == "" || sig == "") = false := by
    simp [haid, hts, hsig]
  refine ⟨by simp [hpar, staleRejected], ?_⟩
  simp [verifyHMAC, hb, hpar, staleRejected]

/-- C9 witness: the non-numeric timestamp abc reaches signature verification
and even authenticates, although now is arbitrarily far from any timestamp. -/
theorem c9_witness :
    jsParseInt "abc" = none ∧
    verifyHMAC wEnv wMac (some "SEOAgent") (some "abc") (some "aa") "" 999999999
      = lookupAndVerify wEnv wMac "SEOAgent" "abc" "aa" "" ∧
    verifyHMAC wEnv wMac (some "SEOAgent") (some "abc") (some "aa") "" 999999999
      = AuthResult.authenticated "SEOAgent" RiskLevel.low := by
  refine ⟨by decide, ?_, by decide⟩
  exact (c9_nan_timestamp_bypasses_window wEnv wMac "SEOAgent" "abc" "aa" "" 999999999
    (by decide) (by decide) (by decide) (by decide)).2

/-- C1 counterexample: ContentAgent is statically medium risk, yet its
flag_change for the non-sensitive key beta.banner is applied at submission
time: the KV write happens, no pending Change is recorded, and the response
is applied rather than pending. -/
theorem c1_counterexample :
    (agentPostFlags emptyState "ContentAgent" .medium betaFlag "ch1" "f1").2
      = FlagsResp.applied "ch1" ∧
    (agentPostFlags emptyState "ContentAgent" .medium betaFlag "ch1" "f1").1.flagsKV
      = [("beta.banner", "true")] ∧
    (agentPostFlags emptyState "ContentAgent" .medium betaFlag "ch1" "f1").1.changes = [] ∧
    ¬ (agentPostFlags emptyState "ContentAgent" .medium betaFlag "ch1" "f1").2
      = FlagsResp.pendingApproval "ch1" := by decide

/-- C1 amended: a content proposal from a non-low-risk agent is recorded
pending with no executor side effect, and a flag_change from a non-low-risk
agent is recorded pending with no flag write exactly when its key is
sensitive; a flag_change with a non-sensitive key is applied immediately at
submission regardless of the agent's risk level. -/
theorem c1_amended :
    (∀ st agentId risk cp changeId, risk ≠ RiskLevel.low →
      validContentProposal cp = true →
      (agentPostContent st agentId risk cp changeId).2 = ContentResp.pendingApproval changeId ∧
      (agentPostContent st agentId risk cp changeId).1.changes
        = st.changes ++ [contentChangeRec agentId risk cp changeId] ∧
      (contentChangeRec agentId risk cp changeId).status = ChangeStatus.pending ∧
      (agentPostContent st agentId risk cp changeId).1.flagsKV = st.flagsKV ∧
      (agentPostContent st agentId risk cp changeId).1.flagLog = st.flagLog) ∧
    (∀ st agentId risk fc changeId rowId, risk ≠ RiskLevel.low →
      isHighRiskKey fc.flagKey = true →
      (agentPostFlags st agentId risk fc changeId rowId).2 = FlagsResp.pendingApproval changeId ∧
      (agentPostFlags st agentId risk fc changeId rowId).1.changes
        = st.changes ++ [flagChangeRec agentId fc changeId] ∧
      (flagChangeRec agentId fc changeId).status = ChangeStatus.pending ∧
      (agentPostFlags st agentId risk fc changeId rowId).1.flagsKV = st.flagsKV ∧
      (agentPostFlags st agentId risk fc changeId rowId).1.flagLog = st.flagLog) ∧
    (∀ st agentId risk fc changeId rowId, isHighRiskKey fc.flagKey = false →
      (agentPostFlags st agentId risk fc changeId rowId).2 = FlagsResp.applied changeId ∧
      (agentPostFlags st agentId risk fc changeId rowId).1.flagsKV
        = kvPut st.flagsKV fc.flagKey fc.value ∧
      (agentPostFlags st agentId risk fc changeId rowId).1.changes = st.changes) := by
  refine ⟨?_, ?_, ?_⟩
  · intro st agentId risk cp changeId hrisk hv
    have hr : (risk == RiskLevel.low) = false := by
      cases risk <;> simp_all
    have hs : (contentChangeRec agentId risk cp changeId).status = ChangeStatus.pending := by
      simp [contentChangeRec, hr]
    exact ⟨by simp [agentPostContent, hv, hr], by simp [agentPostContent, hv, hr], hs,
      by simp [agentPostContent, hv, hr], by simp [agentPostContent, hv, hr]⟩
  · intro st agentId risk fc changeId rowId hrisk hkey
    have hr : (risk != RiskLevel.low) = true := by
      cases risk <;> simp_all
    exact ⟨by simp [agentPostFlags, hkey, hr], by simp [agentPostFlags, hkey, hr], rfl,
      by simp [agentPostFlags, hkey, hr], by simp [agentPostFlags, hkey, hr]⟩
  · intro st agentId risk fc changeId rowId hkey
    refine ⟨?_, ?_, ?_⟩ <;> simp [agentPostFlags, hkey]

/-- C1 witness: a medium-risk content proposal is left pending, a high-risk
agent's sensitive flag_change is left pending with no KV write, and a
non-sensitive flag_change is applied. -/
theorem c1_witness :
    validContentProposal cpSample = true ∧
    (agentPostContent emptyState "ContentAgent" RiskLevel.medium cpSample "w1").2
      = ContentResp.pendingApproval "w1" ∧
    isHighRiskKey prodFlag.flagKey = true ∧
    (agentPostFlags emptyState "CommerceAgent" RiskLevel.high prodFlag "w2" "w3").2
      = FlagsResp.pendingApproval "w2" ∧
    (agentPostFlags emptyState "CommerceAgent" RiskLevel.high prodFlag "w2" "w3").1.flagsKV
      = [] ∧
    isHighRiskKey betaFlag.flagKey = false ∧
    (agentPostFlags emptyState "OpsAgent" RiskLevel.low betaFlag "w4" "w5").2
      = FlagsResp.applied "w4" := by
  refine ⟨by decide, ?_, by decide, ?_, ?_, by decide, ?_⟩
  · exact (c1_amended.1 emptyState "ContentAgent" RiskLevel.medium cpSample "w1"
      (by decide) (by decide)).1
  · exact (c1_amended.2.1 emptyState "CommerceAgent" RiskLevel.high prodFlag "w2" "w3"
      (by decide) (by decide)).1
  · exact (c1_amended.2.1 emptyState "CommerceAgent" RiskLevel.high prodFlag "w2" "w3"
      (by decide) (by decide)).2.2.2.1
  · exact (c1_amended.2.2 emptyState "OpsAgent" RiskLevel.low betaFlag "w4" "w5"
      (by decide)).1

/-- C4 counterexample: SEOAgent is low risk; its flag_change for the
sensitive key production.maintenance_mode is applied immediately: no Change
is recorded at all, in particular none with riskLevel high and status
pending. -/
theorem c4_counterexample :
    isHighRiskKey prodFlag.flagKey = true ∧
    (agentPostFlags emptyState "SEOAgent" .low prodFlag "ch2" "f2").2
      = FlagsResp.applied "ch2" ∧
    (agentPostFlags emptyState "SEOAgent" .low prodFlag "ch2" "f2").1.changes = [] ∧
    ¬ (agentPostFlags emptyState "SEOAgent" .low prodFlag "ch2" "f2").2
      = FlagsResp.pendingApproval "ch2" := by decide

/-- C4 amended: a sensitive-key flag_change from a non-low-risk agent is
recorded with riskLevel high and status pending; from a low-risk agent the
same submission is applied immediately and no Change is recorded. -/
theorem c4_amended :
    (∀ st agentId risk fc changeId rowId, isHighRiskKey fc.flagKey = true →
      risk ≠ RiskLevel.low →
      (agentPostFlags st agentId risk fc changeId rowId).1.changes
        = st.changes ++ [flagChangeRec agentId fc changeId] ∧
      (flagChangeRec agentId fc changeId).riskLevel = RiskLevel.high ∧
      (flagChangeRec agentId fc changeId).status = ChangeStatus.pending ∧
      (agentPostFlags st agentId risk fc changeId rowId).2
        = FlagsResp.pendingApproval changeId) ∧
    (∀ st agentId fc changeId rowId, isHighRiskKey fc.flagKey = true →
      (agentPostFlags st agentId RiskLevel.low fc changeId rowId).2
        = FlagsResp.applied changeId ∧
      (agentPostFlags st agentId RiskLevel.low fc changeId rowId).1.changes = st.changes ∧
      (agentPostFlags st agentId RiskLevel.low fc changeId rowId).1.flagsKV
        = kvPut st.flagsKV fc.flagKey fc.value) := by
  refine ⟨?_, ?_⟩
  · intro st agentId risk fc changeId rowId hkey hrisk
    have hr : (risk != RiskLevel.low) = true := by
      cases risk <;> simp_all
    exact ⟨by simp [agentPostFlags, hkey, hr], rfl, rfl,
      by simp [agentPostFlags, hkey, hr]⟩
  · intro st agentId fc changeId rowId hkey
    refine ⟨?_, ?_, ?_⟩ <;> simp [agentPostFlags]

/-- C4 witness: a medium-risk agent's sensitive flag_change is recorded as a
pending high-risk Change, while a low-risk agent's identical submission is
applied immediately. -/
theorem c4_witness :
    isHighRiskKey prodFlag.flagKey = true ∧
    (agentPostFlags emptyState "ContentAgent" RiskLevel.medium prodFlag "w6" "w7").1.changes
      = [flagChangeRec "ContentAgent" prodFlag "w6"] ∧
    (flagChangeRec "ContentAgent" prodFlag "w6").riskLevel = RiskLevel.high ∧
    (agentPostFlags emptyState "ContentAgent" RiskLevel.medium prodFlag "w6" "w7").2
      = FlagsResp.pendingApproval "w6" ∧
    (agentPostFlags emptyState "SEOAgent" RiskLevel.low prodFlag "w8" "w9").2
      = FlagsResp.applied "w8" := by
  refine ⟨by decide, ?_, ?_, ?_, ?_⟩
  · exact (c4_amended.1 emptyState "ContentAgent" RiskLevel.medium prodFlag "w6" "w7"
      (by decide) (by decide)).1
  · exact (c4_amended.1 emptyState "ContentAgent" RiskLevel.medium prodFlag "w6" "w7"
      (by decide) (by decide)).2.1
  · exact (c4_amended.1 emptyState "ContentAgent" RiskLevel.medium prodFlag "w6" "w7"
      (by decide) (by decide)).2.2.2
  · exact (c4_amended.2 emptyState "SEOAgent" prodFlag "w8" "w9" (by decide)).1

/-- C5, evaluated at the failing input: SEOAgent is low risk; its valid
content proposal is recorded approved and the response claims auto-approval
with a PR created, yet the executor call of the source is an unimplemented
TODO: beyond the inserted approved row nothing changes, and the Change does
not transition to executed (nor is any error recorded). -/
theorem c5_low_risk_executor_missing :
    (agentPostContent emptyState "SEOAgent" .low cpSample "c5").2
      = ContentResp.autoApproved "c5" ∧
    (agentPostContent emptyState "SEOAgent" .low cpSample "c5").1.changes.map Change.status
      = [ChangeStatus.approved] ∧
    (agentPostContent emptyState "SEOAgent" .low cpSample "c5").1.flagsKV = [] ∧
    (agentPostContent emptyState "SEOAgent" .low cpSample "c5").1.flagLog = [] ∧
    ¬ ChangeStatus.executed ∈
      (agentPostContent emptyState "SEOAgent" .low cpSample "c5").1.changes.map Change.status ∧
    (agentPostContent emptyState "SEOAgent" .low cpSample "c5").1.changes.map Change.error
      = [none] := by decide

/-- C3 counterexample: the ledger row c1 is already executed, yet a second
decision through reject does not fail with AlreadyDecided: it reports
success and overwrites the terminal fields (status becomes rejected,
approvedAt is overwritten, error is set). -/
theorem c3_counterexample :
    (adminReject stExecuted "c1" "dup" 20).2 = DecideResult.ok ∧
    ¬ (adminReject stExecuted "c1" "dup" 20).2 = DecideResult.alreadyProcessed ∧
    (adminReject stExecuted "c1" "dup" 20).1.changes.map Change.status
      = [ChangeStatus.rejected] ∧
    (adminReject stExecuted "c1" "dup" 20).1.changes.map Change.approvedAt = [some 20] ∧
    (adminReject stExecuted "c1" "dup" 20).1.changes.map Change.error = [some "dup"] ∧
    ¬ (adminReject stExecuted "c1" "dup" 20).1.changes = stExecuted.changes := by decide

/-- C3 amended: a second approve on a non-pending Change fails with the
AlreadyDecided guard and leaves the state untouched; reject, however, has no
such guard: it reports success and unconditionally overwrites status,
approvedBy, approvedAt and error of every row with the given id, whatever
its current status. -/
theorem c3_amended :
    (∀ st cid now ch, findChange st cid = some ch → ch.status ≠ ChangeStatus.pending →
      adminApprove st cid now = (st, DecideResult.alreadyProcessed)) ∧
    (∀ st cid reason now c, c ∈ st.changes → c.id = cid →
      (adminReject st cid reason now).2 = DecideResult.ok ∧
      ({c with status := ChangeStatus.rejected, approvedBy := some "admin",
               approvedAt := some now, error := some reason} : Change)
        ∈ (adminReject st cid reason now).1.changes) := by
  refine ⟨?_, ?_⟩
  · intro st cid now ch hfind hne
    have hb : (ch.status != ChangeStatus.pending) = true := by simp [hne]
    simp [adminApprove, hfind, hb]
  · intro st cid reason now c hc hid
    refine ⟨rfl, ?_⟩
    have hmem := List.mem_map_of_mem
      (fun x : Change => if x.id == cid then
        {x with status := ChangeStatus.rejected, approvedBy := some "admin",
                approvedAt := some now, error := some reason} else x) hc
    simpa [adminReject, updChange, hid] using hmem

/-- C3 witness: on the executed row c1, approve fails with the guard and
changes nothing, while reject overwrites the executed row. -/
theorem c3_witness :
    findChange stExecuted "c1" = some executedFlagChange ∧
    executedFlagChange.status ≠ ChangeStatus.pending ∧
    adminApprove stExecuted "c1" 20 = (stExecuted, DecideResult.alreadyProcessed) ∧
    ({executedFlagChange with status := ChangeStatus.rejected,
                              approvedBy := some "admin",
                              approvedAt := some 30, error := some "no"} : Change)
      ∈ (adminReject stExecuted "c1" "no" 30).1.changes := by
  refine ⟨by decide, by decide, ?_, ?_⟩
  · exact c3_amended.1 stExecuted "c1" 20 executedFlagChange (by decide) (by decide)
  · exact (c3_amended.2 stExecuted "c1" "no" 30 executedFlagChange (by decide) rfl).2

/-- C7 counterexample: with an empty ledger, reject of the unknown id ghost
does not fail with NotFound: it reports success (while indeed modifying
nothing). -/
theorem c7_counterexample :
    findChange emptyState "ghost" = none ∧
    (adminReject emptyState "ghost" "r" 5).2 = DecideResult.ok ∧
    ¬ (adminReject emptyState "ghost" "r" 5).2 = DecideResult.notFound ∧
    (adminReject emptyState "ghost" "r" 5).1 = emptyState := by decide

/-- C7 amended: approve with an unknown changeId fails with NotFound and
modifies nothing; reject with an unknown changeId also creates and modifies
no record, but it does not fail: it reports success. -/
theorem c7_amended :
    (∀ st cid now, findChange st cid = none →
      adminApprove st cid now = (st, DecideResult.notFound)) ∧
    (∀ st cid reason now, findChange st cid = none →
      (adminReject st cid reason now).1 = st ∧
      (adminReject st cid reason now).2 = DecideResult.ok) := by
  refine ⟨?_, ?_⟩
  · intro st cid now h
    simp [adminApprove, h]
  · intro st cid reason now h
    refine ⟨?_, rfl⟩
    have hnil : st.changes.filter (fun c => c.id == cid) = [] := by
      cases hf : st.changes.filter (fun c => c.id == cid) with
      | nil => rfl
      | cons a l =>
        rw [findChange, hf] at h
        exact absurd h (by simp)
    have hall : ∀ c ∈ st.changes, (c.id == cid) = false := by
      intro c hc
      simpa using List.filter_eq_nil_iff.mp hnil c hc
    have hmap : st.changes.map (fun c => if c.id == cid then
        ({c with status := ChangeStatus.rejected, approvedBy := some "admin",
                 approvedAt := some now, error := some reason} : Change) else c)
        = st.changes := by
      have hpt : ∀ c ∈ st.changes, (if c.id == cid then
          ({c with status := ChangeStatus.rejected, approvedBy := some "admin",
                   approvedAt := some now, error := some reason} : Change) else c) = id c := by
        intro c hc
        simp [hall c hc]
      rw [List.map_congr_left hpt, List.map_id]
    simp only [adminReject, updChange]
    rw [hmap]

/-- C7 witness: on the empty ledger, approve of the unknown id reports
NotFound with nothing modified, and reject reports success with nothing
modified. -/
theorem c7_witness :
    findChange emptyState "nope" = none ∧
    adminApprove emptyState "nope" 7 = (emptyState, DecideResult.notFound) ∧
    (adminReject emptyState "nope" "why" 7).1 = emptyState ∧
    (adminReject emptyState "nope" "why" 7).2 = DecideResult.ok := by
  refine ⟨by decide, ?_, ?_, ?_⟩
  · exact c7_amended.1 emptyState "nope" 7 (by decide)
  · exact (c7_amended.2 emptyState "nope" "why" 7 (by decide)).1
  · exact (c7_amended.2 emptyState "nope" "why" 7 (by decide)).2

/-- Helper: the failed-task update of the catch arm never changes any
task's attempts counter. -/
theorem markMessageFailed_attempts (tid e : String) (now : Int) (st : ApiState) :
    (markMessageFailed tid e now st).tasks.map TaskRec.attempts
      = st.tasks.map TaskRec.attempts := by
  by_cases h : (tid == "") = true
  · simp [markMessageFailed, h]
  · simp only [markMessageFailed, h, Bool.false_eq_true, if_false, updTask, List.map_map]
    apply List.map_congr_left
    intro t _
    by_cases ht : (t.id == tid) = true <;> simp [Function.comp, ht]

/-- C2 counterexample: the handler for t1 throws while attempts = 0 is
strictly below maxAttempts = 3, yet the task's status becomes failed rather
than returning to pending and attempts is not incremented; and t2, whose
attempts already equal maxAttempts, is still retried (redelivered) rather
than dead-ended. -/
theorem c2_counterexample :
    pendingEmailTask.attempts < pendingEmailTask.maxAttempts ∧
    (consumeMessage stTasks msgT1 failingHandlers 100).1.tasks.map TaskRec.status
      = [TaskStatus.failed, TaskStatus.pending] ∧
    (consumeMessage stTasks msgT1 failingHandlers 100).1.tasks.map TaskRec.attempts
      = [0, 3] ∧
    (consumeMessage stTasks msgT1 failingHandlers 100).2 = MsgOutcome.retry ∧
    ¬ (consumeMessage stTasks msgT1 failingHandlers 100).1.tasks.map TaskRec.status
      = [TaskStatus.pending, TaskStatus.pending] ∧
    exhaustedEmailTask.attempts = exhaustedEmailTask.maxAttempts ∧
    (consumeMessage stTasks msgT2 failingHandlers 100).2 = MsgOutcome.retry := by decide

/-- C2 amended: when the handler of a dispatched message throws, the
consumer marks the task failed with the error and completedAt persisted and
unconditionally requeues the message; attempts is never consulted or
incremented (every task keeps its attempts value), so redelivery is
governed solely by the delivery channel, not by maxAttempts. -/
theorem c2_amended (st : ApiState) (msg : QueueMessage) (h : HandlerSet) (now : Int)
    (st' : ApiState) (e : String)
    (hfail : processMessage st msg h now = (st', some e)) :
    consumeMessage st msg h now = (markMessageFailed msg.taskId e now st', MsgOutcome.retry) ∧
    (consumeMessage st msg h now).1.tasks.map TaskRec.attempts
      = st'.tasks.map TaskRec.attempts ∧
    (msg.taskId ≠ "" → ∀ t ∈ (consumeMessage st msg h now).1.tasks, t.id = msg.taskId →
      t.status = TaskStatus.failed ∧ t.error = some e ∧ t.completedAt = some now) := by
  have hc : consumeMessage st msg h now
      = (markMessageFailed msg.taskId e now st', MsgOutcome.retry) := by
    simp [consumeMessage, hfail]
  refine ⟨hc, ?_, ?_⟩
  · rw [hc]
    exact markMessageFailed_attempts msg.taskId e now st'
  · intro hne t ht hid
    rw [hc] at ht
    have hne' : (msg.taskId == "") = false := by simp [hne]
    simp only [markMessageFailed, hne', Bool.false_eq_true, if_false, updTask] at ht
    obtain ⟨x, hx, hxe⟩ := List.mem_map.mp ht
    by_cases hxid : (x.id == msg.taskId) = true
    · rw [if_pos hxid] at hxe
      subst hxe
      exact ⟨rfl, rfl, rfl⟩
    · rw [if_neg (by simpa using hxid)] at hxe
      subst hxe
      exact absurd (by simp [hid]) hxid

/-- C2 witness: the concrete failing send_email dispatch marks t1 failed,
retries the message and leaves every attempts counter unchanged. -/
theorem c2_witness :
    processMessage stTasks msgT1 failingHandlers 100 = (stT1run, some "boom") ∧
    consumeMessage stTasks msgT1 failingHandlers 100
      = (markMessageFailed "t1" "boom" 100 stT1run, MsgOutcome.retry) ∧
    (consumeMessage stTasks msgT1 failingHandlers 100).1.tasks.map TaskRec.attempts
      = stT1run.tasks.map TaskRec.attempts := by
  refine ⟨by rfl, ?_, ?_⟩
  · exact (c2_amended stTasks msgT1 failingHandlers 100 stT1run "boom" (by rfl)).1
  · exact (c2_amended stTasks msgT1 failingHandlers 100 stT1run "boom" (by rfl)).2.1

/-- C10: a message whose type matches no registered handler runs no handler
side effect, yet the task is marked running then completed with completedAt
set and the message is acknowledged — the final state is exactly the status
bookkeeping, independent of the handler table. -/
theorem c10_unknown_type_completes (st : ApiState) (msg : QueueMessage) (h : HandlerSet)
    (now : Int) (hnone : handlerFor h msg.type = none) :
    consumeMessage st msg h now
      = (markCompleted msg.taskId now (markRunning msg.taskId now st), MsgOutcome.ack) ∧
    (∀ t ∈ (consumeMessage st msg h now).1.tasks, t.id = msg.taskId →
      t.status = TaskStatus.completed ∧ t.completedAt = some now) := by
  have hc : consumeMessage st msg h now
      = (markCompleted msg.taskId now (markRunning msg.taskId now st), MsgOutcome.ack) := by
    simp [consumeMessage, processMessage, hnone]
  refine ⟨hc, ?_⟩
  intro t ht hid
  rw [hc] at ht
  simp only [markCompleted, markRunning, updTask, List.map_map] at ht
  obtain ⟨x, hx, hxe⟩ := List.mem_map.mp ht
  by_cases hxid : (x.id == msg.taskId) = true
  · simp only [Function.comp, runUpd, hxid, if_true] at hxe
    subst hxe
    exact ⟨rfl, rfl⟩
  · simp only [Function.comp, runUpd, hxid, Bool.false_eq_true, if_false] at hxe
    subst hxe
    exact absurd (by simp [hid]) hxid

/-- C10 witness: the bogus_type message is acknowledged and its task ends
completed even though every handler in the table would have thrown. -/
theorem c10_witness :
    handlerFor failingHandlers msgUnknown.type = none ∧
    consumeMessage stTasks msgUnknown failingHandlers 100
      = (markCompleted "t1" 100 (markRunning "t1" 100 stTasks), MsgOutcome.ack) := by
  refine ⟨rfl, ?_⟩
  exact (c10_unknown_type_completes stTasks msgUnknown failingHandlers 100 rfl).1

/-- Helper: the sweep loop of sequential per-id running updates acts on the
task table as one conditional map — a row is flipped to running with
startedAt exactly when its id occurs among the selected rows. -/
theorem foldl_markRunning_tasks (now : Int) (sel : List TaskRec) (st : ApiState) :
    (sel.foldl (fun s t => markRunning t.id now s) st).tasks
      = st.tasks.map (fun r =>
          if sel.any (fun t => r.id == t.id) then runUpd now r else r) := by
  induction sel generalizing st with
  | nil => simp
  | cons t ts ih =>
    rw [List.foldl_cons, ih]
    simp only [markRunning, updTask, List.map_map]
    apply List.map_congr_left
    intro r _
    by_cases hid : (r.id == t.id) = true
    · simp [Function.comp, List.any_cons, hid, runUpd, ite_self]
    · simp only [Function.comp, List.any_cons, hid, Bool.false_eq_true, if_false,
        Bool.false_or]

/-- C8 counterexample: both stored tasks are pending and due at time 20, but
the sweep re-submits them in table order — the task scheduled for 10 before
the task scheduled for 5 — not in earliest-scheduledFor-first order. -/
theorem c8_counterexample :
    lateTask.scheduledFor = some 10 ∧
    earlyTask.scheduledFor = some 5 ∧
    (processScheduledTasks stSweep 20).2 = [taskMessage lateTask, taskMessage earlyTask] ∧
    ¬ (processScheduledTasks stSweep 20).2
      = [taskMessage earlyTask, taskMessage lateTask] := by decide

/-- C8 amended: each sweep selects only tasks with status pending and
scheduledFor at most now (a NULL scheduledFor is never selected), processes
a batch of at most ten, re-submits exactly the selected batch to the
delivery channel and flips each selected task to running with startedAt
set, leaving unselected rows untouched; the batch is taken in table order,
the query having no ordering clause. -/
theorem c8_amended (st : ApiState) (now : Int) :
    (processScheduledTasks st now).2 = (sweepSelected st now).map taskMessage ∧
    (processScheduledTasks st now).2.length ≤ 10 ∧
    (∀ t ∈ sweepSelected st now, t.status = TaskStatus.pending ∧
      ∃ s, t.scheduledFor = some s ∧ s ≤ now) ∧
    (∀ t ∈ sweepSelected st now, ∃ t' ∈ (processScheduledTasks st now).1.tasks,
      t'.id = t.id ∧ t'.status = TaskStatus.running ∧ t'.startedAt = some now) ∧
    (∀ r ∈ st.tasks, (∀ t ∈ sweepSelected st now, ¬ t.id = r.id) →
      r ∈ (processScheduledTasks st now).1.tasks) := by
  refine ⟨rfl, ?_, ?_, ?_, ?_⟩
  · show ((sweepSelected st now).map taskMessage).length ≤ 10
    rw [List.length_map]
    exact List.length_take_le 10 _
  · intro t htsel
    have htf : t ∈ st.tasks.filter (eligibleScheduled now) :=
      List.take_subset _ _ htsel
    have hel : eligibleScheduled now t = true := List.of_mem_filter htf
    unfold eligibleScheduled at hel
    rw [Bool.and_eq_true] at hel
    obtain ⟨h1, h2⟩ := hel
    refine ⟨by simpa using h1, ?_⟩
    cases hs : t.scheduledFor with
    | none =>
      rw [hs] at h2
      exact absurd h2 (by simp)
    | some s =>
      rw [hs] at h2
      exact ⟨s, rfl, by simpa using h2⟩
  · intro t htsel
    have htmem : t ∈ st.tasks :=
      List.mem_of_mem_filter (List.take_subset _ _ htsel)
    have hany : ((sweepSelected st now).any (fun x => t.id == x.id)) = true :=
      List.any_eq_true.mpr ⟨t, htsel, by simp⟩
    have hm : runUpd now t ∈ st.tasks.map (fun r =>
        if (sweepSelected st now).any (fun x => r.id == x.id) then runUpd now r else r) := by
      have hm0 := List.mem_map_of_mem (fun r =>
        if (sweepSelected st now).any (fun x => r.id == x.id) then runUpd now r else r) htmem
      simpa [hany] using hm0
    refine ⟨runUpd now t, ?_, rfl, rfl, rfl⟩
    show runUpd now t ∈ (processScheduledTasks st now).1.tasks
    simp only [processScheduledTasks]
    rw [foldl_markRunning_tasks]
    exact hm
  · intro r hr hnone
    have hany : ((sweepSelected st now).any (fun x => r.id == x.id)) = false := by
      rw [List.any_eq_false]
      intro x hx
      simp only [beq_iff_eq]
      exact fun he => hnone x hx he.symm
    have hm : r ∈ st.tasks.map (fun q =>
        if (sweepSelected st now).any (fun x => q.id == x.id) then runUpd now q else q) := by
      have hm0 := List.mem_map_of_mem (fun q =>
        if (sweepSelected st now).any (fun x => q.id == x.id) then runUpd now q else q) hr
      simpa [hany] using hm0
    show r ∈ (processScheduledTasks st now).1.tasks
    simp only [processScheduledTasks]
    rw [foldl_markRunning_tasks]
    exact hm

/-- C8 witness: at time 20 the sweep over the two stored due tasks sends
exactly the selected batch, the batch is within the limit, the selected
late task is pending and due, and it is flipped to running. -/
theorem c8_witness :
    (processScheduledTasks stSweep 20).2 = (sweepSelected stSweep 20).map taskMessage ∧
    (processScheduledTasks stSweep 20).2.length ≤ 10 ∧
    (lateTask.status = TaskStatus.pending ∧
      ∃ s, lateTask.scheduledFor = some s ∧ s ≤ 20) ∧
    (∃ t' ∈ (processScheduledTasks stSweep 20).1.tasks,
      t'.id = lateTask.id ∧ t'.status = TaskStatus.running ∧ t'.startedAt = some 20) := by
  obtain ⟨h1, h2, h3, h4, _⟩ := c8_amended stSweep 20
  exact ⟨h1, h2, h3 lateTask (by decide), h4 lateTask (by decide)⟩
